import Mathlib

/-!
Shallow embedding of the catalog view engine in
`src/components/ProductSection/ProductSection2.tsx`: the data model, the
filter/sort/search pipeline, the price-bounds derivation, the home-page
category grouping, pagination, and the component's event/effect behaviour
as an explicit state machine.

Machine numbers: JS `parseFloat` results are modelled as `Option ℚ`
(`none` = unparsable, i.e. `NaN`); `x || 0` becomes `Option.getD 0`.
JS string operations (`toLowerCase`, `trim`, `includes`) are modelled
directly over the underlying character lists so that all definitions
evaluate by kernel reduction.
-/

/-- Model of JS `String.prototype.toLowerCase` (character-wise lowering). -/
def jsToLower (s : String) : String := ⟨s.data.map Char.toLower⟩

/-- Model of JS `String.prototype.trim`: strip whitespace from both ends. -/
def jsTrim (s : String) : String :=
  ⟨((s.data.dropWhile Char.isWhitespace).reverse.dropWhile Char.isWhitespace).reverse⟩

/-- Does `needle` occur as a contiguous run inside the character list? -/
def charInfix (needle : List Char) : List Char → Bool
  | [] => needle.isEmpty
  | c :: rest => needle.isPrefixOf (c :: rest) || charInfix needle rest

/-- Model of JS `String.prototype.includes`. -/
def jsIncludes (hay needle : String) : Bool := charInfix needle.data hay.data

/-- Product record from `ProductSection2.tsx` (interface `Product`).
`salePrice` and `regularPrice` are decimal strings in the source; they are
modelled by their `parseFloat` result (`none` = unparsable).  Fields the
component never reads (`sku`, `costPrice`, `stockNumber`, `showProduct`,
expiration and variation data) are omitted. -/
structure Product where
  _id : String
  name : String
  brand : Option String := none
  category : String
  salePrice : Option ℚ
  regularPrice : Option ℚ := none
  stockStatus : Option String := none
  description : Option String := none
  images : Option (List String) := none
deriving DecidableEq

/-- Category record from `ProductSection2.tsx` (interface `Category`). -/
structure Category where
  _id : String
  name : String
  img : Option String := none
  banner : Option String := none
  «show» : Option Bool := none
deriving DecidableEq

/-- The value `parseFloat(p.salePrice) || 0` used throughout the component. -/
def parsedPrice (p : Product) : ℚ := p.salePrice.getD 0

/-- Embedding of `getPriceRange` (lines 75-79): `[0, 10000]` for an empty
list, otherwise `[Math.floor(Math.min(...prices)), Math.ceil(Math.max(...prices))]`
over the parsed sale prices. -/
def getPriceRange : List Product → ℚ × ℚ
  | [] => (0, 10000)
  | p :: ps =>
    let prices := (p :: ps).map parsedPrice
    (((⌊prices.foldl min (parsedPrice p)⌋ : ℤ) : ℚ),
     ((⌈prices.foldl max (parsedPrice p)⌉ : ℤ) : ℚ))

/-- Category filter stage (lines 148-154): keep all products for the
sentinel `"All"`, otherwise keep those whose resolved category name matches
the selection case-insensitively; a failed lookup never matches. -/
def categoryFilter (m : String → Option String) (sel : String)
    (ps : List Product) : List Product :=
  if sel = "All" then ps
  else ps.filter fun p =>
    match m p.category with
    | some n => jsToLower n == jsToLower sel
    | none => false

/-- Search filter stage (lines 156-164): skipped when the trimmed query is
empty; otherwise keep products where the lowered-and-trimmed query occurs in
the name, resolved category name, description, or brand (missing fields
never match). -/
def searchFilter (m : String → Option String) (q : String)
    (ps : List Product) : List Product :=
  if jsTrim q = "" then ps
  else
    let query := jsTrim (jsToLower q)
    ps.filter fun p =>
      let categoryName := (m p.category).getD ""
      [some p.name, some categoryName, p.description, p.brand].any fun f =>
        match f with
        | some s => jsIncludes (jsToLower s) query
        | none => false

/-- Price filter stage (lines 166-170): keep products whose parsed sale
price lies within the inclusive bounds. -/
def priceFilter (range : ℚ × ℚ) (ps : List Product) : List Product :=
  ps.filter fun p =>
    decide (range.1 ≤ parsedPrice p) && decide (parsedPrice p ≤ range.2)

/-- The sort comparator of lines 173-184, phrased as "comparator result is
not positive": price keys compare parsed prices numerically, name keys use
string ordering (standing in for `localeCompare`), and an unknown key
compares everything equal. -/
def sortLE (k : String) (a b : Product) : Bool :=
  if k = "price-asc" then decide (parsedPrice a ≤ parsedPrice b)
  else if k = "price-desc" then decide (parsedPrice b ≤ parsedPrice a)
  else if k = "name-asc" then !(compare a.name b.name == Ordering.gt)
  else if k = "name-desc" then !(compare b.name a.name == Ordering.gt)
  else true

/-- Stable insertion used to model the (stable) JS `Array.prototype.sort`. -/
def insertLE (le : Product → Product → Bool) (a : Product) :
    List Product → List Product
  | [] => [a]
  | b :: l => if le a b then a :: b :: l else b :: insertLE le a l

/-- Stable sort by the comparator of sort key `k` (sort stage, lines 172-184). -/
def sortProducts (k : String) (ps : List Product) : List Product :=
  ps.foldr (insertLE (sortLE k)) []

/-- The four-stage pipeline of the filter effect (lines 146-184): category
filter, then search filter, then price filter, then sort. -/
def deriveFiltered (ps : List Product) (m : String → Option String)
    (sel q : String) (range : ℚ × ℚ) (k : String) : List Product :=
  sortProducts k (priceFilter range (searchFilter m q (categoryFilter m sel ps)))

/-- Embedding of `allProductsFiltered` (lines 347-351): the list actually
paginated by the All Products grid, filtered by category only. -/
def allProductsFiltered (ps : List Product) (m : String → Option String)
    (sel : String) : List Product :=
  ps.filter fun p =>
    if sel = "All" then true
    else match m p.category with
      | some n => jsToLower n == jsToLower sel
      | none => false

/-- The fixed page size of the component (`itemsPerPage = 8`, line 68). -/
def itemsPerPage : ℕ := 8

/-- Embedding of `totalPages = Math.ceil(filteredProducts.length / itemsPerPage)`
(line 343), as the ceiling of the exact rational division
(`Rat.divInt n itemsPerPage` is the rational `n / itemsPerPage`). -/
def totalPagesOf (n : ℕ) : ℕ := ⌈Rat.divInt n itemsPerPage⌉₊

/-- Model of JS `Array.prototype.slice(start, stop)` for non-negative
indices: the elements with index `start ≤ i < stop`. -/
def jsSlice (l : List Product) (start stop : ℕ) : List Product :=
  (l.drop start).take (stop - start)

/-- The page slice of lines 341-342 and 532-533:
`slice(indexOfFirstItem, indexOfLastItem)` with
`indexOfLastItem = page * 8` and `indexOfFirstItem = indexOfLastItem - 8`. -/
def pageSlice (page : ℕ) (l : List Product) : List Product :=
  jsSlice l (page * itemsPerPage - itemsPerPage) (page * itemsPerPage)

/-- The pager's page-button window (lines 565-575): at most
`min(totalPages, 5)` buttons chosen around the current page. -/
def pageWindow (cur total : ℕ) : List ℕ :=
  (List.range (min total 5)).map fun i =>
    if total ≤ 5 then i + 1
    else if cur ≤ 3 then i + 1
    else if cur ≥ total - 2 then total - 4 + i
    else cur - 2 + i

/-- Embedding of `visibleCategories` (line 345): categories with
`show !== false` (absent counts as visible). -/
def visibleCategories (cs : List Category) : List Category :=
  cs.filter fun c => !(c.«show» == some false)

/-- Embedding of `showOnlyAllProducts = !!searchQuery?.trim()` (line 346):
the home grouping is suppressed exactly when the trimmed search text is
non-empty. -/
def showOnlyAllProducts (q : String) : Bool := !(jsTrim q == "")

/-- The per-category product strip of lines 416-418: the first up to 8
store-order products whose category identifier equals the category's. -/
def categorySection (ps : List Product) (c : Category) : List Product :=
  (ps.filter fun p => c._id == p.category).take 8

/-- The rendered home-page grouping (lines 406-462): suppressed while
searching; otherwise one section per visible category, dropping sections
with no products (the render returns `null` for those). -/
def renderedSections (ps : List Product) (cs : List Category) (q : String) :
    List (Category × List Product) :=
  if showOnlyAllProducts q then []
  else (visibleCategories cs).filterMap fun c =>
    let l := categorySection ps c
    if l.isEmpty then none else some (c, l)

/-- The category dropdown options (line 505):
`["All", ...categories.map((category) => category.name)]`. -/
def dropdownOptions (cs : List Category) : List String :=
  "All" :: cs.map Category.name

/-- The component's state: the `useState` hooks of lines 54-64 that carry
engine data (pure UI toggles such as `showFilters` are omitted).  The
`categoryMap` is the association list built by the fetch effect, later
entries shadowing earlier ones as JS object assignment does. -/
structure EngineState where
  products : List Product
  categories : List Category
  categoryMap : List (String × String)
  selectedCategory : String
  sortBy : String
  loading : Bool
  error : Option String
  searchQuery : String
  priceRange : ℚ × ℚ
  currentPage : ℕ
  filteredProducts : List Product
deriving DecidableEq

/-- Lookup in the category map; the last binding wins, matching JS object
assignment in the fetch effect (lines 120-124). -/
def mapLookup (m : List (String × String)) (k : String) : Option String :=
  (m.reverse.find? fun e => e.1 == k).map Prod.snd

/-- The map rebuilt from fetched categories (lines 120-124). -/
def buildCategoryMap (cs : List Category) : List (String × String) :=
  cs.map fun c => (c._id, c.name)

/-- Initial state of the hooks (lines 54-64). -/
def initState : EngineState :=
  { products := [], categories := [], categoryMap := []
    selectedCategory := "All", sortBy := "price-asc"
    loading := true, error := none, searchQuery := ""
    priceRange := (0, 10000), currentPage := 1, filteredProducts := [] }

/-- The filter effect (lines 140-188).  When the stored product list is
empty it only clears `filteredProducts` and returns early; otherwise it
recomputes the pipeline and resets the current page to 1. -/
def applyFilterEffect (s : EngineState) : EngineState :=
  if s.products = [] then { s with filteredProducts := [] }
  else
    { s with
      filteredProducts :=
        deriveFiltered s.products (mapLookup s.categoryMap)
          s.selectedCategory s.searchQuery s.priceRange s.sortBy
      currentPage := 1 }

/-- Derived `totalPages` of line 343 over the state. -/
def totalPages (s : EngineState) : ℕ := totalPagesOf s.filteredProducts.length

/-- The category-only filtered list the All Products grid paginates
(lines 347-351) over the state. -/
def currentAllFiltered (s : EngineState) : List Product :=
  allProductsFiltered s.products (mapLookup s.categoryMap) s.selectedCategory

/-- The pager is rendered only when the grid list is non-empty and there is
more than one page (line 553). -/
def pagerVisible (s : EngineState) : Bool :=
  !(currentAllFiltered s).isEmpty && decide (1 < totalPages s)

/-- User and collaborator events the component reacts to.  `load` and
`loadFailed` are the asynchronous completions of the fetch effect
(lines 96-137), which runs on mount and again when the search text or the
public endpoint changes; the page events are the pager buttons
(lines 556-598); the rest are the filter controls. -/
inductive Event where
  | load (ps : List Product) (cs : List Category)
  | loadFailed (reason : String)
  | selectCategory (c : String)
  | bannerClick (c : String)
  | setSearch (q : String)
  | setSort (k : String)
  | setPriceMax (v : ℚ)
  | resetFilters
  | nextPage
  | prevPage
  | gotoPage (p : ℕ)

/-- One event followed by the synchronous re-run of the filter effect
(whose dependency list, line 188, covers every field the non-page events
touch; page moves are not in the dependency list and run no effect). -/
def step (e : Event) (s : EngineState) : EngineState :=
  match e with
  | .load ps cs =>
    applyFilterEffect
      { s with products := ps, categories := cs
               categoryMap := buildCategoryMap cs
               priceRange := getPriceRange ps
               error := none, loading := false }
  | .loadFailed msg =>
    applyFilterEffect
      { s with products := [], error := some msg, loading := false }
  | .selectCategory c => applyFilterEffect { s with selectedCategory := c }
  | .bannerClick c =>
    applyFilterEffect { s with selectedCategory := c, currentPage := 1 }
  | .setSearch q => applyFilterEffect { s with searchQuery := q }
  | .setSort k => applyFilterEffect { s with sortBy := k }
  | .setPriceMax v =>
    applyFilterEffect { s with priceRange := (s.priceRange.1, v) }
  | .resetFilters =>
    applyFilterEffect
      { s with selectedCategory := "All", searchQuery := ""
               sortBy := "price-asc", currentPage := 1
               priceRange := getPriceRange s.products }
  | .nextPage =>
    if pagerVisible s && decide (s.currentPage ≠ totalPages s) then
      { s with currentPage := min (s.currentPage + 1) (totalPages s) }
    else s
  | .prevPage =>
    if pagerVisible s && decide (s.currentPage ≠ 1) then
      { s with currentPage := max (s.currentPage - 1) 1 }
    else s
  | .gotoPage p =>
    if pagerVisible s && (pageWindow s.currentPage (totalPages s)).contains p then
      { s with currentPage := p }
    else s

/-- Run a sequence of events from the initial state. -/
def runEvents (es : List Event) : EngineState :=
  es.foldl (fun s e => step e s) initState

/-- A state is reachable when some event sequence produces it. -/
def Reachable (s : EngineState) : Prop := ∃ es : List Event, runEvents es = s

/-- The product list the All Products grid actually renders (lines 530-535):
`allProductsFiltered.slice(indexOfFirstItem, indexOfLastItem)`. -/
def renderedAllProducts (s : EngineState) : List Product :=
  pageSlice s.currentPage (currentAllFiltered s)

/-- The normalized product record passed to the cart hooks (lines 257-261
and 274-278): the product with the sale price coerced to a number and the
image list defaulted to empty. -/
structure NormalizedProduct where
  product : Product
  salePrice : ℚ
  images : List String
deriving DecidableEq

/-- Normalization applied before calling either cart hook. -/
def normalizeProduct (p : Product) : NormalizedProduct :=
  { product := p, salePrice := parsedPrice p, images := p.images.getD [] }

/-- The behavioural surface of one rendered product card
(`renderProductCard`, lines 202-288): the out-of-stock overlay and the
`disabled` flags of the two purchase buttons, each of which is set exactly
when `product.stockStatus === "OUT OF STOCK"` (the code's spelling of the
out-of-stock status). -/
structure RenderedCard where
  outOfStockOverlay : Bool
  addToCartDisabled : Bool
  buyNowDisabled : Bool
deriving DecidableEq

/-- Embedding of `renderProductCard`'s stock-dependent behaviour. -/
def renderProductCard (p : Product) : RenderedCard :=
  { outOfStockOverlay := p.stockStatus == some "OUT OF STOCK"
    addToCartDisabled := p.stockStatus == some "OUT OF STOCK"
    buyNowDisabled := p.stockStatus == some "OUT OF STOCK" }

/-- Clicking the ADD TO CART button: a disabled button never fires its
`onClick`, so the external `addToCart` hook (an arbitrary action on an
arbitrary cart state) runs only when the button is enabled; quantity is
always 1 (line 261). -/
def clickAddToCart {σ : Type} (addToCart : NormalizedProduct → ℕ → σ → σ)
    (p : Product) (cart : σ) : σ :=
  if (renderProductCard p).addToCartDisabled then cart
  else addToCart (normalizeProduct p) 1 cart

/-- Clicking the BUY NOW button, analogously (lines 271-284). -/
def clickBuyNow {σ : Type} (buyNow : NormalizedProduct → ℕ → σ → σ)
    (p : Product) (cart : σ) : σ :=
  if (renderProductCard p).buyNowDisabled then cart
  else buyNow (normalizeProduct p) 1 cart

/-- Sample category, as in the scenario data of the specification. -/
def catShoes : Category := { _id := "c1", name := "Shoes" }

/-- Sample category, as in the scenario data of the specification. -/
def catHats : Category := { _id := "c2", name := "Hats" }

/-- Sample product with parsed sale price 10 in category `c1`. -/
def prodA : Product := { _id := "a", name := "A", category := "c1", salePrice := some 10 }

/-- Sample product with parsed sale price 5 in category `c2`. -/
def prodB : Product := { _id := "b", name := "B", category := "c2", salePrice := some 5 }

/-- Sample product whose sale price string parses to 5/2 (e.g. `"2.5"`). -/
def prodHalf : Product :=
  { _id := "h", name := "H", category := "c1", salePrice := some (Rat.divInt 5 2) }

/-- Sample out-of-stock product. -/
def prodOut : Product :=
  { _id := "o", name := "O", category := "c1", salePrice := some 7
    stockStatus := some "OUT OF STOCK" }

/-- A batch of nine distinct products in category `c1`, enough for two
pages at eight items per page. -/
def nineProducts : List Product :=
  (List.range 9).map fun i =>
    { _id := toString i, name := "P" ++ toString i, category := "c1"
      salePrice := some ((i : ℚ)) }

/-- A two-product store state right after a successful load: category `All`,
empty search, sort `price-asc`, price bounds the full derived range, page 1. -/
def twoProductState : EngineState :=
  runEvents [Event.load [prodA, prodB] [catShoes, catHats]]

/-- An event history that loads nine products, moves to page 2 through the
pager, and then receives a fetch failure (a refetch triggered by an endpoint
change that errors), leaving the store empty while the page is still 2. -/
def cexTrace : List Event :=
  [Event.load nineProducts [catShoes], Event.nextPage, Event.loadFailed "network error"]

/-- A hidden category (its `show` flag is `false`). -/
def catHidden : Category := { _id := "c9", name := "Clearance", «show» := some false }

/-- A lookup map resolving only the hidden category. -/
def hiddenMap : String → Option String :=
  fun i => if i == "c9" then some "Clearance" else none

/-- A product living in the hidden category. -/
def prodHiddenCat : Product :=
  { _id := "z", name := "Z", category := "c9", salePrice := some 4 }

/-! ### Helper lemmas -/

theorem foldl_min_le_init (l : List ℚ) (a : ℚ) : l.foldl min a ≤ a := by
  induction l generalizing a with
  | nil => simp
  | cons b t ih => exact le_trans (ih (min a b)) (min_le_left a b)

theorem foldl_min_le_mem (l : List ℚ) (a x : ℚ) (hx : x ∈ l) :
    l.foldl min a ≤ x := by
  induction l generalizing a with
  | nil => cases hx
  | cons b t ih =>
    rcases List.mem_cons.mp hx with h | h
    · subst h
      exact le_trans (foldl_min_le_init t (min a x)) (min_le_right a x)
    · exact ih (min a b) h

theorem foldl_min_mem (l : List ℚ) (a : ℚ) : l.foldl min a ∈ a :: l := by
  induction l generalizing a with
  | nil => simp
  | cons b t ih =>
    rcases List.mem_cons.mp (ih (min a b)) with h1 | h1
    · rcases min_choice a b with hc | hc
      · exact List.mem_cons.mpr (Or.inl (h1.trans hc))
      · exact List.mem_cons.mpr (Or.inr (List.mem_cons.mpr (Or.inl (h1.trans hc))))
    · exact List.mem_cons.mpr (Or.inr (List.mem_cons.mpr (Or.inr h1)))

theorem init_le_foldl_max (l : List ℚ) (a : ℚ) : a ≤ l.foldl max a := by
  induction l generalizing a with
  | nil => simp
  | cons b t ih => exact le_trans (le_max_left a b) (ih (max a b))

theorem mem_le_foldl_max (l : List ℚ) (a x : ℚ) (hx : x ∈ l) :
    x ≤ l.foldl max a := by
  induction l generalizing a with
  | nil => cases hx
  | cons b t ih =>
    rcases List.mem_cons.mp hx with h | h
    · subst h
      exact le_trans (le_max_right a x) (init_le_foldl_max t (max a x))
    · exact ih (max a b) h

theorem foldl_max_mem (l : List ℚ) (a : ℚ) : l.foldl max a ∈ a :: l := by
  induction l generalizing a with
  | nil => simp
  | cons b t ih =>
    rcases List.mem_cons.mp (ih (max a b)) with h1 | h1
    · rcases max_choice a b with hc | hc
      · exact List.mem_cons.mpr (Or.inl (h1.trans hc))
      · exact List.mem_cons.mpr (Or.inr (List.mem_cons.mpr (Or.inl (h1.trans hc))))
    · exact List.mem_cons.mpr (Or.inr (List.mem_cons.mpr (Or.inr h1)))

theorem getPriceRange_le (p : Product) (t : List Product) (a : Product)
    (ha : a ∈ p :: t) :
    (getPriceRange (p :: t)).1 ≤ parsedPrice a ∧
    parsedPrice a ≤ (getPriceRange (p :: t)).2 := by
  have hmem : parsedPrice a ∈ (p :: t).map parsedPrice :=
    List.mem_map_of_mem parsedPrice ha
  constructor
  · exact le_trans (Int.floor_le _) (foldl_min_le_mem _ _ _ hmem)
  · exact le_trans (mem_le_foldl_max _ _ _ hmem) (Int.le_ceil _)

theorem priceFilter_full_range (ps : List Product) :
    priceFilter (getPriceRange ps) ps = ps := by
  cases ps with
  | nil => rfl
  | cons p t =>
    apply List.filter_eq_self.mpr
    intro a ha
    have h := getPriceRange_le p t a ha
    simp only [Bool.and_eq_true, decide_eq_true_eq]
    exact h

/-! ### Claim theorems -/

/-- C7: for every product list and every lookup map, with selected category
`"All"`, empty search text, and price bounds equal to the full derived range,
the filter pipeline returns the full product set, ordered solely by the
stable sort for the current sort key. -/
theorem default_view_is_sorted_catalog (ps : List Product)
    (m : String → Option String) (k : String) :
    deriveFiltered ps m "All" "" (getPriceRange ps) k = sortProducts k ps := by
  have hcat : categoryFilter m "All" ps = ps := by
    unfold categoryFilter
    simp
  have hsearch : searchFilter m "" ps = ps := by
    have h : jsTrim "" = "" := rfl
    unfold searchFilter
    simp [h]
  unfold deriveFiltered
  rw [hcat, hsearch, priceFilter_full_range]

/-- C6 counterexample: a single product whose sale price parses to `5/2`
(for example the decimal string `"2.5"`).  The minimum and the maximum of
the parsed prices are both `5/2`, but `getPriceRange` returns `(2, 3)`
because the source floors the minimum and ceils the maximum. -/
theorem getPriceRange_not_plain_min_max :
    getPriceRange [prodHalf] = (2, 3) ∧
    getPriceRange [prodHalf] ≠ (Rat.divInt 5 2, Rat.divInt 5 2) := by
  constructor
  · decide
  · decide

/-- C6 as amended: for a non-empty product list the derived bounds are the
floor of the minimum and the ceiling of the maximum parsed sale price
(an unparsable price counting as 0); for the empty list they are the fixed
default `[0, 10000]`. -/
theorem getPriceRange_floor_min_ceil_max :
    getPriceRange [] = (0, 10000) ∧
    ∀ (ps : List Product) (m M : ℚ),
      (m ∈ ps.map parsedPrice ∧ ∀ x ∈ ps.map parsedPrice, m ≤ x) →
      (M ∈ ps.map parsedPrice ∧ ∀ x ∈ ps.map parsedPrice, x ≤ M) →
      getPriceRange ps = (((⌊m⌋ : ℤ) : ℚ), ((⌈M⌉ : ℤ) : ℚ)) := by
  refine ⟨rfl, ?_⟩
  intro ps m M hm hM
  cases ps with
  | nil => cases hm.1
  | cons p t =>
    have hmin : ((p :: t).map parsedPrice).foldl min (parsedPrice p) = m := by
      apply le_antisymm
      · exact foldl_min_le_mem _ _ _ hm.1
      · apply hm.2
        rcases List.mem_cons.mp (foldl_min_mem ((p :: t).map parsedPrice) (parsedPrice p)) with h | h
        · rw [h]
          exact List.mem_map_of_mem parsedPrice (List.mem_cons_self p t)
        · exact h
    have hmax : ((p :: t).map parsedPrice).foldl max (parsedPrice p) = M := by
      apply le_antisymm
      · apply hM.2
        rcases List.mem_cons.mp (foldl_max_mem ((p :: t).map parsedPrice) (parsedPrice p)) with h | h
        · rw [h]
          exact List.mem_map_of_mem parsedPrice (List.mem_cons_self p t)
        · exact h
      · exact mem_le_foldl_max _ _ _ hM.1
    show ((((⌊((p :: t).map parsedPrice).foldl min (parsedPrice p)⌋ : ℤ) : ℚ)),
          (((⌈((p :: t).map parsedPrice).foldl max (parsedPrice p)⌉ : ℤ) : ℚ))) = _
    rw [hmin, hmax]

/-- C6 witness: on the two-product store with parsed prices 10 and 5 the
minimum is 5, the maximum is 10, and the derived bounds are `(5, 10)`. -/
theorem getPriceRange_floor_min_ceil_max_witness :
    ((5 : ℚ) ∈ [prodA, prodB].map parsedPrice ∧
      ∀ x ∈ [prodA, prodB].map parsedPrice, (5 : ℚ) ≤ x) ∧
    ((10 : ℚ) ∈ [prodA, prodB].map parsedPrice ∧
      ∀ x ∈ [prodA, prodB].map parsedPrice, x ≤ (10 : ℚ)) ∧
    getPriceRange [prodA, prodB] = (((⌊(5 : ℚ)⌋ : ℤ) : ℚ), ((⌈(10 : ℚ)⌉ : ℤ) : ℚ)) :=
  ⟨by decide, by decide,
    getPriceRange_floor_min_ceil_max.2 [prodA, prodB] 5 10 (by decide) (by decide)⟩

/-- C3 counterexample: for a filtered count of 0 the source computes
`Math.ceil(0 / 8) = 0`, not the claimed empty-state minimum of 1. -/
theorem totalPages_of_empty_not_one : totalPagesOf 0 ≠ 1 := by decide

/-- C3 as amended: the computed page count is `ceil(n / 8)` for every
filtered count `n`, which is `(n + 7) / 8` in integer arithmetic; for
`n = 0` it is 0 — the source applies no minimum of 1 (the grid falls back
to its empty-state branch and the pager is simply not rendered). -/
theorem totalPages_eq_ceil_div :
    (∀ n : ℕ, totalPagesOf n = (n + 7) / 8) ∧ totalPagesOf 0 = 0 := by
  refine ⟨?_, by decide⟩
  intro n
  unfold totalPagesOf itemsPerPage
  rw [Rat.divInt_eq_div]
  push_cast
  apply le_antisymm
  · rw [Nat.ceil_le, div_le_iff₀ (by norm_num : (0 : ℚ) < 8)]
    have h := Nat.div_add_mod (n + 7) 8
    have h2 := Nat.mod_lt (n + 7) (show 0 < 8 by norm_num)
    have h3 : n ≤ (n + 7) / 8 * 8 := by omega
    exact_mod_cast h3
  · rcases Nat.eq_zero_or_pos ((n + 7) / 8) with h0 | hpos
    · simp [h0]
    · have hgap : (n + 7) / 8 - 1 < ⌈(n : ℚ) / 8⌉₊ → (n + 7) / 8 ≤ ⌈(n : ℚ) / 8⌉₊ := by
        omega
      apply hgap
      rw [Nat.lt_ceil, lt_div_iff₀ (by norm_num : (0 : ℚ) < 8)]
      have h := Nat.div_add_mod (n + 7) 8
      have h2 := Nat.mod_lt (n + 7) (show 0 < 8 by norm_num)
      have h3 : ((n + 7) / 8 - 1) * 8 < n := by omega
      exact_mod_cast h3

/-- C2 counterexample: after a successful load that stored one category and
no products, a fetch failure records the error and empties the products but
leaves the stored categories untouched — the source's catch block
(lines 127-133) calls `setProducts([])` and never `setCategories([])`. -/
theorem loadFailed_keeps_categories :
    (runEvents [Event.load [] [catShoes], Event.loadFailed "network error"]).categories
      = [catShoes] ∧ [catShoes] ≠ ([] : List Category) := by
  constructor
  · decide
  · decide

/-- C2 as amended: a fetch failure records the failure reason and sets the
stored products (and the derived filtered list) to empty, while the stored
categories keep their previous value; since no products remain, the store
still contains no product without its matching category. -/
theorem loadFailed_clears_products_records_error (s : EngineState) (msg : String) :
    (step (Event.loadFailed msg) s).error = some msg ∧
    (step (Event.loadFailed msg) s).products = [] ∧
    (step (Event.loadFailed msg) s).filteredProducts = [] ∧
    (step (Event.loadFailed msg) s).categories = s.categories := by
  unfold step applyFilterEffect
  simp

set_option maxRecDepth 32768 in
/-- C4 counterexample: load nine products, page forward to page 2, then
lose the store to a failed refetch; the store is now empty and the page is
still 2.  This state is reachable, and a subsequent category change leaves
the current page at 2 because the filter effect (lines 141-144) returns
before its `setCurrentPage(1)` when the product list is empty. -/
theorem category_change_keeps_page_on_empty_store :
    Reachable (runEvents cexTrace) ∧
    (step (Event.selectCategory "Hats") (runEvents cexTrace)).currentPage ≠ 1 := by
  refine ⟨⟨cexTrace, rfl⟩, ?_⟩
  decide

/-- C4 as amended: whenever the stored product list is non-empty, any change
to the selected category, the search text, the sort key, or the price bounds
resets the current page to 1; with an empty stored product list the filter
effect early-returns and the page is left unchanged. -/
theorem filter_change_resets_page (s : EngineState) (c q k : String) (v : ℚ)
    (h : s.products ≠ []) :
    (step (Event.selectCategory c) s).currentPage = 1 ∧
    (step (Event.setSearch q) s).currentPage = 1 ∧
    (step (Event.setSort k) s).currentPage = 1 ∧
    (step (Event.setPriceMax v) s).currentPage = 1 := by
  unfold step applyFilterEffect
  simp [h]

/-- C4 witness: on the freshly loaded two-product state every filter-change
event resets the page to 1. -/
theorem filter_change_resets_page_witness :
    twoProductState.products ≠ [] ∧
    ((step (Event.selectCategory "Shoes") twoProductState).currentPage = 1 ∧
     (step (Event.setSearch "hat") twoProductState).currentPage = 1 ∧
     (step (Event.setSort "name-asc") twoProductState).currentPage = 1 ∧
     (step (Event.setPriceMax 3) twoProductState).currentPage = 1) :=
  ⟨by decide, filter_change_resets_page twoProductState "Shoes" "hat" "name-asc" 3 (by decide)⟩

/-- C5: for every rendered product whose stock status is the out-of-stock
value (spelled `"OUT OF STOCK"` in the source), both purchase buttons are
disabled, so invoking either hook performs no cart action at all, for any
cart state type and any hook behaviour. -/
theorem out_of_stock_hooks_refused {σ : Type}
    (addToCart buyNow : NormalizedProduct → ℕ → σ → σ) (p : Product) (cart : σ)
    (h : p.stockStatus = some "OUT OF STOCK") :
    clickAddToCart addToCart p cart = cart ∧ clickBuyNow buyNow p cart = cart := by
  unfold clickAddToCart clickBuyNow renderProductCard
  simp [h]

/-- C5 witness: on a concrete out-of-stock product, a cart hook that would
append an item leaves the empty cart empty for both buttons. -/
theorem out_of_stock_hooks_refused_witness :
    prodOut.stockStatus = some "OUT OF STOCK" ∧
    (clickAddToCart (fun n q c => c ++ [(n, q)]) prodOut
        ([] : List (NormalizedProduct × ℕ)) = [] ∧
     clickBuyNow (fun n q c => c ++ [(n, q)]) prodOut
        ([] : List (NormalizedProduct × ℕ)) = []) :=
  ⟨rfl, out_of_stock_hooks_refused _ _ prodOut [] rfl⟩

/-- C9: for every page number at least 1 and every product list, the page
slice with start index `(p-1)*8` and end index `p*8` is a total function of
the list (it is defined by `drop`/`take`, which never fail); it returns at
most 8 items, and returns the empty list whenever the start index is at or
beyond the list's length. -/
theorem pageSlice_safe (p : ℕ) (l : List Product) (hp : 1 ≤ p) :
    (pageSlice p l).length ≤ 8 ∧
    (l.length ≤ (p - 1) * 8 → pageSlice p l = []) := by
  have hidx : p * itemsPerPage - itemsPerPage = (p - 1) * 8 := by
    unfold itemsPerPage
    omega
  constructor
  · unfold pageSlice jsSlice itemsPerPage
    simp only [List.length_take, List.length_drop]
    omega
  · intro h
    unfold pageSlice jsSlice
    rw [hidx]
    rw [List.drop_eq_nil_of_le (by omega : l.length ≤ (p - 1) * 8)]
    simp

/-- C9 witness: page 3 of a one-product list starts at index 16, past the
end, and yields the empty page. -/
theorem pageSlice_safe_witness :
    1 ≤ 3 ∧
    ((pageSlice 3 [prodA]).length ≤ 8 ∧
     (([prodA] : List Product).length ≤ (3 - 1) * 8 → pageSlice 3 [prodA] = [])) :=
  ⟨by decide, pageSlice_safe 3 [prodA] (by decide)⟩

/-- C10: the category dropdown lists `"All"` followed by the name of every
stored category in order — the source (line 505) does not consult the
`show` flag — and selecting the name of a hidden category (one with
`show = false`) filters the All Products list by case-insensitive name
equality through exactly the same predicate as any other non-`"All"`
selection. -/
theorem dropdown_lists_all_categories
    (cs : List Category) (ps : List Product) (m : String → Option String)
    (c : Category) ( _hshow : c.«show» = some false) (hname : c.name ≠ "All") :
    dropdownOptions cs = "All" :: cs.map Category.name ∧
    allProductsFiltered ps m c.name =
      ps.filter fun p => (m p.category).map jsToLower == some (jsToLower c.name) := by
  constructor
  · rfl
  · unfold allProductsFiltered
    apply List.filter_congr
    intro p _
    rw [if_neg hname]
    cases m p.category with
    | none => rfl
    | some n => rfl

/-- C10 witness: the hidden category `Clearance` appears in the dropdown,
and selecting its name filters the list through the case-insensitive name
predicate. -/
theorem dropdown_lists_all_categories_witness :
    catHidden.«show» = some false ∧ catHidden.name ≠ "All" ∧
    (dropdownOptions [catShoes, catHidden]
        = "All" :: [catShoes, catHidden].map Category.name ∧
     allProductsFiltered [prodA, prodHiddenCat] hiddenMap catHidden.name =
       [prodA, prodHiddenCat].filter fun p =>
         (hiddenMap p.category).map jsToLower == some (jsToLower catHidden.name)) :=
  ⟨rfl, by decide,
    dropdown_lists_all_categories [catShoes, catHidden] [prodA, prodHiddenCat]
      hiddenMap catHidden rfl (by decide)⟩

/-- Bool-valued equality tests are symmetric in their arguments. -/
theorem beq_swap_str (a b : String) : (a == b) = (b == a) := by
  by_cases h : a = b
  · subst h
    rfl
  · rw [beq_eq_false_iff_ne.mpr h, beq_eq_false_iff_ne.mpr (Ne.symm h)]

/-- Dropping the empty sections from a per-category map agrees with the
render's `filterMap` over the same categories. -/
theorem filterMap_sections (ps : List Product) (l : List Category) :
    (l.filterMap fun c =>
        let s := categorySection ps c
        if s.isEmpty then none else some (c, s)) =
      ((l.map fun c => (c, (ps.filter fun p => p.category == c._id).take 8)).filter
        fun sec => !sec.2.isEmpty) := by
  induction l with
  | nil => rfl
  | cons c t ih =>
    have hsec : categorySection ps c = (ps.filter fun p => p.category == c._id).take 8 := by
      unfold categorySection
      congr 1
      apply List.filter_congr
      intro p _
      exact beq_swap_str c._id p.category
    rw [List.map_cons, List.filter_cons]
    by_cases he : (categorySection ps c).isEmpty
    · rw [List.filterMap_cons_none (by simp [he])]
      have hpred : (!((ps.filter fun p => p.category == c._id).take 8).isEmpty) = false := by
        rw [← hsec]
        simp [he]
      rw [hpred]
      simp only [Bool.false_eq_true, if_false]
      exact ih
    · rw [List.filterMap_cons_some (b := (c, categorySection ps c)) (by simp [he])]
      have hpred : (!((ps.filter fun p => p.category == c._id).take 8).isEmpty) = true := by
        rw [← hsec]
        simp [he]
      rw [hpred]
      simp only [if_true]
      rw [hsec, ih]

/-- C8: the home-page grouping is suppressed exactly when the trimmed search
text is non-empty; otherwise it walks the categories with `show !== false`
in their stored order, pairs each with the first up to 8 products whose
category identifier equals that category's identifier in the store's
original product order (no sort applied), and omits every category with no
matching products. -/
theorem home_grouping_matches (ps : List Product) (cs : List Category) (q : String) :
    renderedSections ps cs q =
      if jsTrim q = "" then
        ((cs.filter fun c => !(c.«show» == some false)).map
            fun c => (c, (ps.filter fun p => p.category == c._id).take 8)).filter
          fun sec => !sec.2.isEmpty
      else [] := by
  unfold renderedSections showOnlyAllProducts visibleCategories
  by_cases h : jsTrim q = ""
  · rw [if_pos h]
    have hb : (jsTrim q == "") = true := beq_iff_eq.mpr h
    simp only [hb, Bool.not_true, Bool.false_eq_true, if_false]
    exact filterMap_sections ps (cs.filter fun c => !(c.«show» == some false))
  · rw [if_neg h]
    have hb : (jsTrim q == "") = false := beq_eq_false_iff_ne.mpr h
    simp [hb]

/-- C1: at the concrete two-product store (prices 10 and 5, sort
`price-asc`, category `All`, empty search, full price range, page 1) the
grid of the All Products section renders the category-only
`allProductsFiltered` slice `[prodA, prodB]`, whereas the stage-4 pipeline
output sliced to the same page is `[prodB, prodA]`: the rendered list is
not the paginated pipeline output (the source computes `filteredProducts`
but paginates `allProductsFiltered`, so sort, search and price filters
never affect the grid). -/
theorem rendered_grid_ignores_pipeline :
    renderedAllProducts twoProductState = [prodA, prodB] ∧
    pageSlice twoProductState.currentPage twoProductState.filteredProducts
      = [prodB, prodA] ∧
    renderedAllProducts twoProductState ≠
      pageSlice twoProductState.currentPage twoProductState.filteredProducts := by
  refine ⟨by decide, by decide, by decide⟩
